import Mathlib

/-!
Verification of the coordinate-transformation module `GaiaFunctions.py`
(Gaia Archive Data Analysis).  The module converts equatorial sky
coordinates to Galactic coordinates (`equatorial_galactic`), to Galactic
Cartesian position (`equatorial_XYZ`), and to Galactic space velocity
(`equatorial_UVW`), with optional first-order error propagation.

The embedding models numpy arrays as `List ℝ` (exact real arithmetic in
place of floating point), element-wise ufuncs as `List.zipWith`/`List.map`,
Python float `%` as `pymod`, `np.arctan2` as `arctan2`, and the
`raise ValueError` / `TypeError` paths as `Except PyErr`.  Scalar (0-d)
inputs, which numpy broadcasts through ufuncs but which do not support
`len`, are modelled by the `_scalar` variants of the three functions.
-/

noncomputable section

/-- Global constant `kappa` from the source: mas/yr × pc → km/s. -/
def kappa : ℝ := 0.004743717361

/-- Right ascension of the Galactic pole (degrees). -/
def ra_pol : ℝ := 192.8595

/-- Declination of the Galactic pole (degrees). -/
def dec_pol : ℝ := 27.12825

/-- Galactic longitude of the equatorial north pole (degrees). -/
def l_north : ℝ := 122.932

/-- `np.radians`: degrees to radians. -/
def radians (x : ℝ) : ℝ := x * Real.pi / 180

/-- `np.degrees`: radians to degrees. -/
def degrees (x : ℝ) : ℝ := x * 180 / Real.pi

/-- Module-level constant `sin_dec_pol = np.sin(np.radians(dec_pol))`. -/
def sin_dec_pol : ℝ := Real.sin (radians dec_pol)

/-- Module-level constant `cos_dec_pol = np.cos(np.radians(dec_pol))`. -/
def cos_dec_pol : ℝ := Real.cos (radians dec_pol)

/-- The fixed 3×3 equatorial→Galactic rotation matrix `TGAL` of the source. -/
def TGAL : Fin 3 → Fin 3 → ℝ
  | ⟨0, _⟩, ⟨0, _⟩ => -0.0548755604
  | ⟨0, _⟩, ⟨1, _⟩ => -0.8734370902
  | ⟨0, _⟩, ⟨2, _⟩ => -0.4838350155
  | ⟨1, _⟩, ⟨0, _⟩ => 0.4941094279
  | ⟨1, _⟩, ⟨1, _⟩ => -0.4448296300
  | ⟨1, _⟩, ⟨2, _⟩ => 0.7469822445
  | ⟨2, _⟩, ⟨0, _⟩ => -0.8676661490
  | ⟨2, _⟩, ⟨1, _⟩ => -0.1980763734
  | ⟨2, _⟩, ⟨2, _⟩ => 0.4559837762

/-- `np.arctan2 y x` on exact reals (quadrant-resolving two-argument arctangent). -/
def arctan2 (y x : ℝ) : ℝ :=
  if 0 < x then Real.arctan (y / x)
  else if x < 0 then
    (if 0 ≤ y then Real.arctan (y / x) + Real.pi else Real.arctan (y / x) - Real.pi)
  else
    (if 0 < y then Real.pi / 2 else if y < 0 then -(Real.pi / 2) else 0)

/-- Python float `x % m` on exact reals: `x - m*floor(x/m)`. -/
def pymod (x m : ℝ) : ℝ := x - m * (⌊x / m⌋ : ℤ)

/-- Per-star `gamma = sin_dec_pol*sin_dec + cos_dec_pol*cos_dec*cos_ra`
(`sin_dec`, `cos_dec` of `dec`; `cos_ra` of `ra - ra_pol`). -/
def gammaFun (ra dec : ℝ) : ℝ :=
  sin_dec_pol * Real.sin (radians dec)
    + cos_dec_pol * Real.cos (radians dec) * Real.cos (radians (ra - ra_pol))

/-- Per-star Galactic latitude `gb = np.degrees(np.arcsin(gamma))`. -/
def gbFun (ra dec : ℝ) : ℝ := degrees (Real.arcsin (gammaFun ra dec))

/-- Per-star `x1 = cos_dec * sin_ra` (with `sin_ra` of `ra - ra_pol`). -/
def x1fun (ra dec : ℝ) : ℝ :=
  Real.cos (radians dec) * Real.sin (radians (ra - ra_pol))

/-- Per-star `x2 = (sin_dec - sin_dec_pol*gamma)/cos_dec_pol`. -/
def x2fun (ra dec : ℝ) : ℝ :=
  (Real.sin (radians dec) - sin_dec_pol * gammaFun ra dec) / cos_dec_pol

/-- Per-star Galactic longitude:
`gl = l_north - np.degrees(np.arctan2(x1,x2))` then `gl = (gl+360.)%(360.)`. -/
def glFun (ra dec : ℝ) : ℝ :=
  pymod (l_north - degrees (arctan2 (x1fun ra dec) (x2fun ra dec)) + 360) 360

/-- Per-star `T1 = TGAL[0,0]*cos_ra*cos_dec + TGAL[0,1]*sin_ra*cos_dec + TGAL[0,2]*sin_dec`. -/
def T1fun (ra dec : ℝ) : ℝ :=
  TGAL 0 0 * Real.cos (radians ra) * Real.cos (radians dec)
    + TGAL 0 1 * Real.sin (radians ra) * Real.cos (radians dec)
    + TGAL 0 2 * Real.sin (radians dec)

/-- Per-star `T2 = -TGAL[0,0]*sin_ra + TGAL[0,1]*cos_ra`. -/
def T2fun (ra dec : ℝ) : ℝ :=
  -TGAL 0 0 * Real.sin (radians ra) + TGAL 0 1 * Real.cos (radians ra)

/-- Per-star `T3 = -TGAL[0,0]*cos_ra*sin_dec - TGAL[0,1]*sin_ra*sin_dec + TGAL[0,2]*cos_dec`. -/
def T3fun (ra dec : ℝ) : ℝ :=
  -TGAL 0 0 * Real.cos (radians ra) * Real.sin (radians dec)
    - TGAL 0 1 * Real.sin (radians ra) * Real.sin (radians dec)
    + TGAL 0 2 * Real.cos (radians dec)

/-- Per-star `T4` (row 1 of `TGAL`, radial direction). -/
def T4fun (ra dec : ℝ) : ℝ :=
  TGAL 1 0 * Real.cos (radians ra) * Real.cos (radians dec)
    + TGAL 1 1 * Real.sin (radians ra) * Real.cos (radians dec)
    + TGAL 1 2 * Real.sin (radians dec)

/-- Per-star `T5` (row 1 of `TGAL`, pmra direction). -/
def T5fun (ra dec : ℝ) : ℝ :=
  -TGAL 1 0 * Real.sin (radians ra) + TGAL 1 1 * Real.cos (radians ra)

/-- Per-star `T6` (row 1 of `TGAL`, pmdec direction). -/
def T6fun (ra dec : ℝ) : ℝ :=
  -TGAL 1 0 * Real.cos (radians ra) * Real.sin (radians dec)
    - TGAL 1 1 * Real.sin (radians ra) * Real.sin (radians dec)
    + TGAL 1 2 * Real.cos (radians dec)

/-- Per-star `T7` (row 2 of `TGAL`, radial direction). -/
def T7fun (ra dec : ℝ) : ℝ :=
  TGAL 2 0 * Real.cos (radians ra) * Real.cos (radians dec)
    + TGAL 2 1 * Real.sin (radians ra) * Real.cos (radians dec)
    + TGAL 2 2 * Real.sin (radians dec)

/-- Per-star `T8` (row 2 of `TGAL`, pmra direction). -/
def T8fun (ra dec : ℝ) : ℝ :=
  -TGAL 2 0 * Real.sin (radians ra) + TGAL 2 1 * Real.cos (radians ra)

/-- Per-star `T9` (row 2 of `TGAL`, pmdec direction). -/
def T9fun (ra dec : ℝ) : ℝ :=
  -TGAL 2 0 * Real.cos (radians ra) * Real.sin (radians dec)
    - TGAL 2 1 * Real.sin (radians ra) * Real.sin (radians dec)
    + TGAL 2 2 * Real.cos (radians dec)

/-- Element-wise numpy array arithmetic on equal-length arrays. -/
instance : Add (List ℝ) := ⟨List.zipWith (fun x y => x + y)⟩

instance : Mul (List ℝ) := ⟨List.zipWith (fun x y => x * y)⟩

instance : HPow (List ℝ) ℕ (List ℝ) := ⟨fun a n => a.map (fun x => x ^ n)⟩

/-- `np.sqrt`, element-wise. -/
def npSqrt (a : List ℝ) : List ℝ := a.map Real.sqrt

/-- `np.abs`, element-wise. -/
def npAbs (a : List ℝ) : List ℝ := a.map (fun x => |x|)

/-- `np.cos(np.radians(·))`, element-wise. -/
def cosArr (a : List ℝ) : List ℝ := a.map (fun x => Real.cos (radians x))

/-- `np.sin(np.radians(·))`, element-wise. -/
def sinArr (a : List ℝ) : List ℝ := a.map (fun x => Real.sin (radians x))

/-- The `reduced_dist` loop: `reduced_dist.append(kappa*dist[i])` for each `i`. -/
def reduced (dist : List ℝ) : List ℝ := dist.map (fun d => kappa * d)

/-- The two error kinds the source can raise: `ValueError` on a shape
mismatch in the up-front checks, and `TypeError` from `len` on a scalar. -/
inductive PyErr where
  | shapeMismatch
  | typeError
deriving DecidableEq

/-- Result of `equatorial_XYZ`: a 3-tuple, or a 6-tuple when `dist_error` is given. -/
inductive XYZResult where
  | plain (X Y Z : List ℝ)
  | withError (X Y Z EX EY EZ : List ℝ)

/-- The 3 position components, from either arity of result. -/
def XYZResult.pos : XYZResult → List ℝ × List ℝ × List ℝ
  | .plain X Y Z => (X, Y, Z)
  | .withError X Y Z _ _ _ => (X, Y, Z)

/-- Result of `equatorial_UVW`: a 3-tuple, or a 6-tuple when any error array is given. -/
inductive UVWResult where
  | plain (U V W : List ℝ)
  | withError (U V W EU EV EW : List ℝ)

/-- The 3 velocity components, from either arity of result. -/
def UVWResult.vel : UVWResult → List ℝ × List ℝ × List ℝ
  | .plain U V W => (U, V, W)
  | .withError U V W _ _ _ => (U, V, W)

/-- The check `x_error is not None and np.size(x_error) != num_stars`. -/
def optSizeBad : Option (List ℝ) → Nat → Bool
  | none, _ => false
  | some e, n => e.length != n

/-- `equatorial_galactic(ra, dec)`: checks `np.size(dec) == np.size(ra)`,
then computes `(gl, gb)` element-wise. -/
def equatorial_galactic (ra dec : List ℝ) : Except PyErr (List ℝ × List ℝ) :=
  if dec.length ≠ ra.length then .error .shapeMismatch
  else .ok (List.zipWith glFun ra dec, List.zipWith gbFun ra dec)

/-- `equatorial_XYZ(ra, dec, dist, dist_error=None)`. -/
def equatorial_XYZ (ra dec dist : List ℝ) (dist_error : Option (List ℝ)) :
    Except PyErr XYZResult :=
  if dec.length ≠ ra.length ∨ dist.length ≠ ra.length then .error .shapeMismatch
  else if optSizeBad dist_error ra.length then .error .shapeMismatch
  else
    match equatorial_galactic ra dec with
    | .error e => .error e
    | .ok (gl, gb) =>
      match dist_error with
      | none =>
        .ok (.plain (cosArr gb * cosArr gl * dist) (cosArr gb * sinArr gl * dist)
          (sinArr gb * dist))
      | some de =>
        .ok (.withError (cosArr gb * cosArr gl * dist) (cosArr gb * sinArr gl * dist)
          (sinArr gb * dist)
          (npAbs (cosArr gb * cosArr gl * de)) (npAbs (cosArr gb * sinArr gl * de))
          (npAbs (sinArr gb * de)))

/-- `U = T1*rv + T2*pmra*reduced_dist + T3*pmdec*reduced_dist`. -/
def uvwU (ra dec pmra pmdec rv dist : List ℝ) : List ℝ :=
  List.zipWith T1fun ra dec * rv + List.zipWith T2fun ra dec * pmra * reduced dist
    + List.zipWith T3fun ra dec * pmdec * reduced dist

/-- `V = T4*rv + T5*pmra*reduced_dist + T6*pmdec*reduced_dist`. -/
def uvwV (ra dec pmra pmdec rv dist : List ℝ) : List ℝ :=
  List.zipWith T4fun ra dec * rv + List.zipWith T5fun ra dec * pmra * reduced dist
    + List.zipWith T6fun ra dec * pmdec * reduced dist

/-- `W = T7*rv + T8*pmra*reduced_dist + T9*pmdec*reduced_dist`. -/
def uvwW (ra dec pmra pmdec rv dist : List ℝ) : List ℝ :=
  List.zipWith T7fun ra dec * rv + List.zipWith T8fun ra dec * pmra * reduced dist
    + List.zipWith T9fun ra dec * pmdec * reduced dist

/-- `T23_pm = np.sqrt((T2*a)**2+(T3*b)**2)` (with `a`,`b` either the proper
motions or their errors); the same shape is reused for rows 5/6 and 8/9. -/
def T23pm (ra dec a b : List ℝ) : List ℝ :=
  npSqrt ((List.zipWith T2fun ra dec * a) ^ 2 + (List.zipWith T3fun ra dec * b) ^ 2)

/-- `T56_pm` analogue of `T23pm`. -/
def T56pm (ra dec a b : List ℝ) : List ℝ :=
  npSqrt ((List.zipWith T5fun ra dec * a) ^ 2 + (List.zipWith T6fun ra dec * b) ^ 2)

/-- `T89_pm` analogue of `T23pm`. -/
def T89pm (ra dec a b : List ℝ) : List ℝ :=
  npSqrt ((List.zipWith T8fun ra dec * a) ^ 2 + (List.zipWith T9fun ra dec * b) ^ 2)

/-- `EU = np.sqrt(EU_rv**2 + EU_pm**2 + EU_dist**2 + EU_dist_pm**2)` with
`EU_rv = T1*rv_error`, `EU_pm = T23_pm_error*reduced_dist`,
`EU_dist = T23_pm*reduced_dist_error`, `EU_dist_pm = T23_pm_error*reduced_dist_error`. -/
def uvwEU (ra dec pmra pmdec dist pe pde rve de : List ℝ) : List ℝ :=
  npSqrt ((List.zipWith T1fun ra dec * rve) ^ 2 + (T23pm ra dec pe pde * reduced dist) ^ 2
    + (T23pm ra dec pmra pmdec * reduced de) ^ 2 + (T23pm ra dec pe pde * reduced de) ^ 2)

/-- `EV`, as `uvwEU` with rows 4/5/6. -/
def uvwEV (ra dec pmra pmdec dist pe pde rve de : List ℝ) : List ℝ :=
  npSqrt ((List.zipWith T4fun ra dec * rve) ^ 2 + (T56pm ra dec pe pde * reduced dist) ^ 2
    + (T56pm ra dec pmra pmdec * reduced de) ^ 2 + (T56pm ra dec pe pde * reduced de) ^ 2)

/-- `EW`, as `uvwEU` with rows 7/8/9. -/
def uvwEW (ra dec pmra pmdec dist pe pde rve de : List ℝ) : List ℝ :=
  npSqrt ((List.zipWith T7fun ra dec * rve) ^ 2 + (T89pm ra dec pe pde * reduced dist) ^ 2
    + (T89pm ra dec pmra pmdec * reduced de) ^ 2 + (T89pm ra dec pe pde * reduced de) ^ 2)

/-- `equatorial_UVW(ra, dec, pmra, pmdec, rv, dist, *errors)`.  The up-front
checks compare `dec, pmra, pmdec, dist` (not `rv`) and each supplied error
array against `np.size(ra)`; the plain 3-tuple is returned when all four
error arguments are `None`, else every missing error is replaced by
`np.zeros(num_stars)` and the 6-tuple is returned. -/
def equatorial_UVW (ra dec pmra pmdec rv dist : List ℝ)
    (pmra_error pmdec_error rv_error dist_error : Option (List ℝ)) :
    Except PyErr UVWResult :=
  if dec.length ≠ ra.length ∨ pmra.length ≠ ra.length ∨ pmdec.length ≠ ra.length
      ∨ dist.length ≠ ra.length then .error .shapeMismatch
  else if optSizeBad pmra_error ra.length then .error .shapeMismatch
  else if optSizeBad pmdec_error ra.length then .error .shapeMismatch
  else if optSizeBad rv_error ra.length then .error .shapeMismatch
  else if optSizeBad dist_error ra.length then .error .shapeMismatch
  else if pmra_error.isNone ∧ pmdec_error.isNone ∧ rv_error.isNone ∧ dist_error.isNone then
    .ok (.plain (uvwU ra dec pmra pmdec rv dist) (uvwV ra dec pmra pmdec rv dist)
      (uvwW ra dec pmra pmdec rv dist))
  else
    .ok (.withError (uvwU ra dec pmra pmdec rv dist) (uvwV ra dec pmra pmdec rv dist)
      (uvwW ra dec pmra pmdec rv dist)
      (uvwEU ra dec pmra pmdec dist (pmra_error.getD (List.replicate ra.length 0))
        (pmdec_error.getD (List.replicate ra.length 0))
        (rv_error.getD (List.replicate ra.length 0))
        (dist_error.getD (List.replicate ra.length 0)))
      (uvwEV ra dec pmra pmdec dist (pmra_error.getD (List.replicate ra.length 0))
        (pmdec_error.getD (List.replicate ra.length 0))
        (rv_error.getD (List.replicate ra.length 0))
        (dist_error.getD (List.replicate ra.length 0)))
      (uvwEW ra dec pmra pmdec dist (pmra_error.getD (List.replicate ra.length 0))
        (pmdec_error.getD (List.replicate ra.length 0))
        (rv_error.getD (List.replicate ra.length 0))
        (dist_error.getD (List.replicate ra.length 0))))

/-- Scalar result type for `equatorial_XYZ` on scalar (0-d) inputs. -/
inductive XYZScalarResult where
  | plain (X Y Z : ℝ)
  | withError (X Y Z EX EY EZ : ℝ)

/-- Scalar result type for `equatorial_UVW` on scalar (0-d) inputs. -/
inductive UVWScalarResult where
  | plain (U V W : ℝ)
  | withError (U V W EU EV EW : ℝ)

/-- `equatorial_galactic` on scalar inputs: `np.size` of a scalar is 1, so
the check compares 1 with 1 and passes, and every ufunc acts on scalars. -/
def equatorial_galactic_scalar (ra dec : ℝ) : Except PyErr (ℝ × ℝ) :=
  .ok (glFun ra dec, gbFun ra dec)

/-- `equatorial_XYZ` on scalar inputs: all `np.size` checks compare 1 with 1
and pass, and the whole computation is scalar arithmetic. -/
def equatorial_XYZ_scalar (ra dec dist : ℝ) (dist_error : Option ℝ) :
    Except PyErr XYZScalarResult :=
  match equatorial_galactic_scalar ra dec with
  | .error e => .error e
  | .ok (gl, gb) =>
    match dist_error with
    | none =>
      .ok (.plain (Real.cos (radians gb) * Real.cos (radians gl) * dist)
        (Real.cos (radians gb) * Real.sin (radians gl) * dist)
        (Real.sin (radians gb) * dist))
    | some de =>
      .ok (.withError (Real.cos (radians gb) * Real.cos (radians gl) * dist)
        (Real.cos (radians gb) * Real.sin (radians gl) * dist)
        (Real.sin (radians gb) * dist)
        |Real.cos (radians gb) * Real.cos (radians gl) * de|
        |Real.cos (radians gb) * Real.sin (radians gl) * de|
        |Real.sin (radians gb) * de|)

/-- `equatorial_UVW` on scalar inputs.  The up-front `np.size` checks all
compare 1 with 1 and pass, and `T1..T9` are scalar arithmetic; but the loop
`for i in range(len(dist))` applies `len` to a scalar, and `len` of a
Python/numpy scalar raises `TypeError`, so the call never produces U, V, W. -/
def equatorial_UVW_scalar (ra dec pmra pmdec rv dist : ℝ)
    (pmra_error pmdec_error rv_error dist_error : Option ℝ) :
    Except PyErr UVWScalarResult :=
  .error .typeError

/-! ### Element-access lemmas for the array operations -/

theorem zipWith_some (f : ℝ → ℝ → ℝ) {a b : List ℝ} {i : Nat} {x y : ℝ}
    (hx : a[i]? = some x) (hy : b[i]? = some y) :
    (List.zipWith f a b)[i]? = some (f x y) := by
  induction a generalizing b i with
  | nil => simp at hx
  | cons p ps ih =>
    cases b with
    | nil => simp at hy
    | cons q qs =>
      cases i with
      | zero =>
        simp only [List.getElem?_cons_zero, Option.some.injEq] at hx hy
        simp [hx, hy]
      | succ i =>
        simp only [List.getElem?_cons_succ] at hx hy
        simpa using ih hx hy

theorem map_some (f : ℝ → ℝ) {a : List ℝ} {i : Nat} {x : ℝ}
    (hx : a[i]? = some x) : (a.map f)[i]? = some (f x) := by
  simp [List.getElem?_map, hx]

theorem listAdd_some {a b : List ℝ} {i : Nat} {x y : ℝ}
    (hx : a[i]? = some x) (hy : b[i]? = some y) : (a + b)[i]? = some (x + y) :=
  zipWith_some _ hx hy

theorem listMul_some {a b : List ℝ} {i : Nat} {x y : ℝ}
    (hx : a[i]? = some x) (hy : b[i]? = some y) : (a * b)[i]? = some (x * y) :=
  zipWith_some _ hx hy

theorem listPow_some {a : List ℝ} {i : Nat} {x : ℝ} (n : ℕ)
    (hx : a[i]? = some x) : (a ^ n)[i]? = some (x ^ n) :=
  map_some _ hx

theorem npSqrt_some {a : List ℝ} {i : Nat} {x : ℝ}
    (hx : a[i]? = some x) : (npSqrt a)[i]? = some (Real.sqrt x) :=
  map_some _ hx

theorem npAbs_some {a : List ℝ} {i : Nat} {x : ℝ}
    (hx : a[i]? = some x) : (npAbs a)[i]? = some |x| :=
  map_some _ hx

theorem cosArr_some {a : List ℝ} {i : Nat} {x : ℝ}
    (hx : a[i]? = some x) : (cosArr a)[i]? = some (Real.cos (radians x)) :=
  map_some _ hx

theorem sinArr_some {a : List ℝ} {i : Nat} {x : ℝ}
    (hx : a[i]? = some x) : (sinArr a)[i]? = some (Real.sin (radians x)) :=
  map_some _ hx

theorem reduced_some {a : List ℝ} {i : Nat} {x : ℝ}
    (hx : a[i]? = some x) : (reduced a)[i]? = some (kappa * x) :=
  map_some _ hx

theorem replicate_zero_some {n i : Nat} (hi : i < n) :
    (List.replicate n (0 : ℝ))[i]? = some 0 := by
  rw [List.getElem?_eq_getElem (by simpa using hi)]
  simp

/-! ### Unfolding lemmas for the three functions under valid shapes -/

theorem equatorial_galactic_ok {ra dec : List ℝ} (hdec : dec.length = ra.length) :
    equatorial_galactic ra dec
      = .ok (List.zipWith glFun ra dec, List.zipWith gbFun ra dec) := by
  simp [equatorial_galactic, hdec]

theorem optSizeBad_false {o : Option (List ℝ)} {n : Nat}
    (h : ∀ e, o = some e → e.length = n) : optSizeBad o n = false := by
  cases o with
  | none => rfl
  | some e => simp [optSizeBad, h e rfl]

theorem equatorial_XYZ_ok_none {ra dec dist : List ℝ}
    (hdec : dec.length = ra.length) (hdist : dist.length = ra.length) :
    equatorial_XYZ ra dec dist none
      = .ok (.plain (cosArr (List.zipWith gbFun ra dec) * cosArr (List.zipWith glFun ra dec) * dist)
          (cosArr (List.zipWith gbFun ra dec) * sinArr (List.zipWith glFun ra dec) * dist)
          (sinArr (List.zipWith gbFun ra dec) * dist)) := by
  rw [equatorial_XYZ, if_neg (by simp [hdec, hdist]),
    if_neg (by simp [optSizeBad_false (o := none) (fun e h => by cases h)]),
    equatorial_galactic_ok hdec]

theorem equatorial_XYZ_ok_some {ra dec dist de : List ℝ}
    (hdec : dec.length = ra.length) (hdist : dist.length = ra.length)
    (hde : de.length = ra.length) :
    equatorial_XYZ ra dec dist (some de)
      = .ok (.withError
          (cosArr (List.zipWith gbFun ra dec) * cosArr (List.zipWith glFun ra dec) * dist)
          (cosArr (List.zipWith gbFun ra dec) * sinArr (List.zipWith glFun ra dec) * dist)
          (sinArr (List.zipWith gbFun ra dec) * dist)
          (npAbs (cosArr (List.zipWith gbFun ra dec) * cosArr (List.zipWith glFun ra dec) * de))
          (npAbs (cosArr (List.zipWith gbFun ra dec) * sinArr (List.zipWith glFun ra dec) * de))
          (npAbs (sinArr (List.zipWith gbFun ra dec) * de))) := by
  rw [equatorial_XYZ, if_neg (by simp [hdec, hdist]),
    if_neg (by simp [optSizeBad, hde]), equatorial_galactic_ok hdec]

theorem equatorial_UVW_checks_pass {ra dec pmra pmdec rv dist : List ℝ}
    {pe pde rve de : Option (List ℝ)}
    (hdec : dec.length = ra.length) (hpmra : pmra.length = ra.length)
    (hpmdec : pmdec.length = ra.length) (hdist : dist.length = ra.length)
    (hpe : ∀ e, pe = some e → e.length = ra.length)
    (hpde : ∀ e, pde = some e → e.length = ra.length)
    (hrve : ∀ e, rve = some e → e.length = ra.length)
    (hde : ∀ e, de = some e → e.length = ra.length) :
    equatorial_UVW ra dec pmra pmdec rv dist pe pde rve de
      = if pe.isNone ∧ pde.isNone ∧ rve.isNone ∧ de.isNone then
          .ok (.plain (uvwU ra dec pmra pmdec rv dist) (uvwV ra dec pmra pmdec rv dist)
            (uvwW ra dec pmra pmdec rv dist))
        else
          .ok (.withError (uvwU ra dec pmra pmdec rv dist) (uvwV ra dec pmra pmdec rv dist)
            (uvwW ra dec pmra pmdec rv dist)
            (uvwEU ra dec pmra pmdec dist (pe.getD (List.replicate ra.length 0))
              (pde.getD (List.replicate ra.length 0)) (rve.getD (List.replicate ra.length 0))
              (de.getD (List.replicate ra.length 0)))
            (uvwEV ra dec pmra pmdec dist (pe.getD (List.replicate ra.length 0))
              (pde.getD (List.replicate ra.length 0)) (rve.getD (List.replicate ra.length 0))
              (de.getD (List.replicate ra.length 0)))
            (uvwEW ra dec pmra pmdec dist (pe.getD (List.replicate ra.length 0))
              (pde.getD (List.replicate ra.length 0)) (rve.getD (List.replicate ra.length 0))
              (de.getD (List.replicate ra.length 0)))) := by
  rw [equatorial_UVW, if_neg (by simp [hdec, hpmra, hpmdec, hdist]),
    if_neg (by simp [optSizeBad_false hpe]), if_neg (by simp [optSizeBad_false hpde]),
    if_neg (by simp [optSizeBad_false hrve]), if_neg (by simp [optSizeBad_false hde])]

/-! ### Arithmetic lemmas about `pymod` -/

theorem pymod_nonneg_360 (x : ℝ) : 0 ≤ pymod x 360 := by
  unfold pymod
  have h1 : ((⌊x / 360⌋ : ℤ) : ℝ) ≤ x / 360 := Int.floor_le (x / 360)
  have h2 : (360 : ℝ) * ((⌊x / 360⌋ : ℤ) : ℝ) ≤ 360 * (x / 360) := by linarith
  have h3 : (360 : ℝ) * (x / 360) = x := by field_simp
  linarith

theorem pymod_lt_360 (x : ℝ) : pymod x 360 < 360 := by
  unfold pymod
  have h1 : x / 360 < ((⌊x / 360⌋ : ℤ) : ℝ) + 1 := Int.lt_floor_add_one (x / 360)
  have h2 : (360 : ℝ) * (x / 360) < 360 * (((⌊x / 360⌋ : ℤ) : ℝ) + 1) := by linarith
  have h3 : (360 : ℝ) * (x / 360) = x := by field_simp
  linarith

theorem pymod_add_360 (x : ℝ) : pymod (x + 360) 360 = pymod x 360 := by
  unfold pymod
  have h : (x + 360) / 360 = x / 360 + 1 := by
    rw [add_div]
    norm_num
  rw [h, Int.floor_add_one]
  push_cast
  ring

/-! ### Element-wise values of the UVW components -/

theorem uvwU_some {ra dec pmra pmdec rv dist : List ℝ} {i : Nat}
    {r d pm pmd rvi di : ℝ}
    (hr : ra[i]? = some r) (hd : dec[i]? = some d) (hpm : pmra[i]? = some pm)
    (hpmd : pmdec[i]? = some pmd) (hrv : rv[i]? = some rvi) (hdi : dist[i]? = some di) :
    (uvwU ra dec pmra pmdec rv dist)[i]?
      = some (T1fun r d * rvi + T2fun r d * pm * (kappa * di) + T3fun r d * pmd * (kappa * di)) :=
  listAdd_some
    (listAdd_some (listMul_some (zipWith_some T1fun hr hd) hrv)
      (listMul_some (listMul_some (zipWith_some T2fun hr hd) hpm) (reduced_some hdi)))
    (listMul_some (listMul_some (zipWith_some T3fun hr hd) hpmd) (reduced_some hdi))

theorem uvwV_some {ra dec pmra pmdec rv dist : List ℝ} {i : Nat}
    {r d pm pmd rvi di : ℝ}
    (hr : ra[i]? = some r) (hd : dec[i]? = some d) (hpm : pmra[i]? = some pm)
    (hpmd : pmdec[i]? = some pmd) (hrv : rv[i]? = some rvi) (hdi : dist[i]? = some di) :
    (uvwV ra dec pmra pmdec rv dist)[i]?
      = some (T4fun r d * rvi + T5fun r d * pm * (kappa * di) + T6fun r d * pmd * (kappa * di)) :=
  listAdd_some
    (listAdd_some (listMul_some (zipWith_some T4fun hr hd) hrv)
      (listMul_some (listMul_some (zipWith_some T5fun hr hd) hpm) (reduced_some hdi)))
    (listMul_some (listMul_some (zipWith_some T6fun hr hd) hpmd) (reduced_some hdi))

theorem uvwW_some {ra dec pmra pmdec rv dist : List ℝ} {i : Nat}
    {r d pm pmd rvi di : ℝ}
    (hr : ra[i]? = some r) (hd : dec[i]? = some d) (hpm : pmra[i]? = some pm)
    (hpmd : pmdec[i]? = some pmd) (hrv : rv[i]? = some rvi) (hdi : dist[i]? = some di) :
    (uvwW ra dec pmra pmdec rv dist)[i]?
      = some (T7fun r d * rvi + T8fun r d * pm * (kappa * di) + T9fun r d * pmd * (kappa * di)) :=
  listAdd_some
    (listAdd_some (listMul_some (zipWith_some T7fun hr hd) hrv)
      (listMul_some (listMul_some (zipWith_some T8fun hr hd) hpm) (reduced_some hdi)))
    (listMul_some (listMul_some (zipWith_some T9fun hr hd) hpmd) (reduced_some hdi))

theorem T23pm_some {ra dec a b : List ℝ} {i : Nat} {r d ai bi : ℝ}
    (hr : ra[i]? = some r) (hd : dec[i]? = some d) (ha : a[i]? = some ai)
    (hb : b[i]? = some bi) :
    (T23pm ra dec a b)[i]?
      = some (Real.sqrt ((T2fun r d * ai) ^ 2 + (T3fun r d * bi) ^ 2)) :=
  npSqrt_some (listAdd_some (listPow_some 2 (listMul_some (zipWith_some T2fun hr hd) ha))
    (listPow_some 2 (listMul_some (zipWith_some T3fun hr hd) hb)))

theorem T56pm_some {ra dec a b : List ℝ} {i : Nat} {r d ai bi : ℝ}
    (hr : ra[i]? = some r) (hd : dec[i]? = some d) (ha : a[i]? = some ai)
    (hb : b[i]? = some bi) :
    (T56pm ra dec a b)[i]?
      = some (Real.sqrt ((T5fun r d * ai) ^ 2 + (T6fun r d * bi) ^ 2)) :=
  npSqrt_some (listAdd_some (listPow_some 2 (listMul_some (zipWith_some T5fun hr hd) ha))
    (listPow_some 2 (listMul_some (zipWith_some T6fun hr hd) hb)))

theorem T89pm_some {ra dec a b : List ℝ} {i : Nat} {r d ai bi : ℝ}
    (hr : ra[i]? = some r) (hd : dec[i]? = some d) (ha : a[i]? = some ai)
    (hb : b[i]? = some bi) :
    (T89pm ra dec a b)[i]?
      = some (Real.sqrt ((T8fun r d * ai) ^ 2 + (T9fun r d * bi) ^ 2)) :=
  npSqrt_some (listAdd_some (listPow_some 2 (listMul_some (zipWith_some T8fun hr hd) ha))
    (listPow_some 2 (listMul_some (zipWith_some T9fun hr hd) hb)))

theorem uvwEU_some {ra dec pmra pmdec dist pe pde rve de : List ℝ} {i : Nat}
    {r d pm pmd di pei pdei rvei dei : ℝ}
    (hr : ra[i]? = some r) (hd : dec[i]? = some d) (hpm : pmra[i]? = some pm)
    (hpmd : pmdec[i]? = some pmd) (hdi : dist[i]? = some di) (hpe : pe[i]? = some pei)
    (hpde : pde[i]? = some pdei) (hrve : rve[i]? = some rvei) (hde : de[i]? = some dei) :
    (uvwEU ra dec pmra pmdec dist pe pde rve de)[i]?
      = some (Real.sqrt ((T1fun r d * rvei) ^ 2
        + (Real.sqrt ((T2fun r d * pei) ^ 2 + (T3fun r d * pdei) ^ 2) * (kappa * di)) ^ 2
        + (Real.sqrt ((T2fun r d * pm) ^ 2 + (T3fun r d * pmd) ^ 2) * (kappa * dei)) ^ 2
        + (Real.sqrt ((T2fun r d * pei) ^ 2 + (T3fun r d * pdei) ^ 2) * (kappa * dei)) ^ 2)) :=
  npSqrt_some (listAdd_some (listAdd_some (listAdd_some
    (listPow_some 2 (listMul_some (zipWith_some T1fun hr hd) hrve))
    (listPow_some 2 (listMul_some (T23pm_some hr hd hpe hpde) (reduced_some hdi))))
    (listPow_some 2 (listMul_some (T23pm_some hr hd hpm hpmd) (reduced_some hde))))
    (listPow_some 2 (listMul_some (T23pm_some hr hd hpe hpde) (reduced_some hde))))

theorem uvwEV_some {ra dec pmra pmdec dist pe pde rve de : List ℝ} {i : Nat}
    {r d pm pmd di pei pdei rvei dei : ℝ}
    (hr : ra[i]? = some r) (hd : dec[i]? = some d) (hpm : pmra[i]? = some pm)
    (hpmd : pmdec[i]? = some pmd) (hdi : dist[i]? = some di) (hpe : pe[i]? = some pei)
    (hpde : pde[i]? = some pdei) (hrve : rve[i]? = some rvei) (hde : de[i]? = some dei) :
    (uvwEV ra dec pmra pmdec dist pe pde rve de)[i]?
      = some (Real.sqrt ((T4fun r d * rvei) ^ 2
        + (Real.sqrt ((T5fun r d * pei) ^ 2 + (T6fun r d * pdei) ^ 2) * (kappa * di)) ^ 2
        + (Real.sqrt ((T5fun r d * pm) ^ 2 + (T6fun r d * pmd) ^ 2) * (kappa * dei)) ^ 2
        + (Real.sqrt ((T5fun r d * pei) ^ 2 + (T6fun r d * pdei) ^ 2) * (kappa * dei)) ^ 2)) :=
  npSqrt_some (listAdd_some (listAdd_some (listAdd_some
    (listPow_some 2 (listMul_some (zipWith_some T4fun hr hd) hrve))
    (listPow_some 2 (listMul_some (T56pm_some hr hd hpe hpde) (reduced_some hdi))))
    (listPow_some 2 (listMul_some (T56pm_some hr hd hpm hpmd) (reduced_some hde))))
    (listPow_some 2 (listMul_some (T56pm_some hr hd hpe hpde) (reduced_some hde))))

theorem uvwEW_some {ra dec pmra pmdec dist pe pde rve de : List ℝ} {i : Nat}
    {r d pm pmd di pei pdei rvei dei : ℝ}
    (hr : ra[i]? = some r) (hd : dec[i]? = some d) (hpm : pmra[i]? = some pm)
    (hpmd : pmdec[i]? = some pmd) (hdi : dist[i]? = some di) (hpe : pe[i]? = some pei)
    (hpde : pde[i]? = some pdei) (hrve : rve[i]? = some rvei) (hde : de[i]? = some dei) :
    (uvwEW ra dec pmra pmdec dist pe pde rve de)[i]?
      = some (Real.sqrt ((T7fun r d * rvei) ^ 2
        + (Real.sqrt ((T8fun r d * pei) ^ 2 + (T9fun r d * pdei) ^ 2) * (kappa * di)) ^ 2
        + (Real.sqrt ((T8fun r d * pm) ^ 2 + (T9fun r d * pmd) ^ 2) * (kappa * dei)) ^ 2
        + (Real.sqrt ((T8fun r d * pei) ^ 2 + (T9fun r d * pdei) ^ 2) * (kappa * dei)) ^ 2)) :=
  npSqrt_some (listAdd_some (listAdd_some (listAdd_some
    (listPow_some 2 (listMul_some (zipWith_some T7fun hr hd) hrve))
    (listPow_some 2 (listMul_some (T89pm_some hr hd hpe hpde) (reduced_some hdi))))
    (listPow_some 2 (listMul_some (T89pm_some hr hd hpm hpmd) (reduced_some hde))))
    (listPow_some 2 (listMul_some (T89pm_some hr hd hpe hpde) (reduced_some hde))))

/-! ### Concrete trigonometric evaluations used by the counterexamples -/

theorem TGAL_02 : TGAL 0 2 = -0.4838350155 := rfl

theorem radians_90 : radians 90 = Real.pi / 2 := by
  unfold radians; ring

theorem sin_radians_90 : Real.sin (radians 90) = 1 := by
  rw [radians_90, Real.sin_pi_div_two]

theorem cos_radians_90 : Real.cos (radians 90) = 0 := by
  rw [radians_90, Real.cos_pi_div_two]

theorem degrees_radians (x : ℝ) : degrees (radians x) = x := by
  unfold degrees radians
  field_simp

theorem degrees_zero : degrees 0 = 0 := by
  unfold degrees; simp

theorem radians_dec_pol_pos : 0 < radians dec_pol := by
  unfold radians dec_pol
  positivity

theorem radians_dec_pol_lt : radians dec_pol < Real.pi / 2 := by
  unfold radians dec_pol
  nlinarith [Real.pi_pos]

theorem cos_dec_pol_pos : 0 < cos_dec_pol :=
  Real.cos_pos_of_mem_Ioo ⟨by linarith [radians_dec_pol_pos, Real.pi_pos], radians_dec_pol_lt⟩

theorem gamma_0_90 : gammaFun 0 90 = sin_dec_pol := by
  unfold gammaFun
  rw [sin_radians_90, cos_radians_90]
  ring

theorem gbFun_0_90 : gbFun 0 90 = dec_pol := by
  unfold gbFun
  rw [gamma_0_90]
  show degrees (Real.arcsin (Real.sin (radians dec_pol))) = dec_pol
  rw [Real.arcsin_sin (by linarith [radians_dec_pol_pos, Real.pi_pos])
    (le_of_lt radians_dec_pol_lt), degrees_radians]

theorem x1_0_90 : x1fun 0 90 = 0 := by
  unfold x1fun
  rw [cos_radians_90, zero_mul]

theorem x2_0_90 : x2fun 0 90 = cos_dec_pol := by
  unfold x2fun
  rw [gamma_0_90, sin_radians_90, div_eq_iff (ne_of_gt cos_dec_pol_pos)]
  have h : sin_dec_pol ^ 2 + cos_dec_pol ^ 2 = 1 :=
    Real.sin_sq_add_cos_sq (radians dec_pol)
  nlinarith [h]

theorem arctan2_zero_pos {x : ℝ} (hx : 0 < x) : arctan2 0 x = 0 := by
  unfold arctan2
  rw [if_pos hx, zero_div, Real.arctan_zero]

theorem floor_482932_div_360 : ⌊(482.932 : ℝ) / 360⌋ = 1 := by
  rw [Int.floor_eq_iff]
  norm_num

theorem glFun_0_90 : glFun 0 90 = 122.932 := by
  unfold glFun
  rw [x1_0_90, x2_0_90, arctan2_zero_pos cos_dec_pol_pos, degrees_zero]
  unfold l_north pymod
  norm_num [floor_482932_div_360]

theorem cos_radians_122932_neg : Real.cos (radians 122.932) < 0 := by
  apply Real.cos_neg_of_pi_div_two_lt_of_lt
  · unfold radians
    nlinarith [Real.pi_pos]
  · unfold radians
    nlinarith [Real.pi_pos]

/-! ### Claims -/

/-- C1: for every valid input (all six arrays of common length N, any error
options of matching length), the velocity components of `equatorial_UVW`
satisfy, element-wise, `U = T1*rv + T2*pmra*(kappa*dist) + T3*pmdec*(kappa*dist)`,
`V` from (T4,T5,T6) and `W` from (T7,T8,T9), with `kappa*dist` the reduced distance. -/
theorem C1_velocity_components (ra dec pmra pmdec rv dist : List ℝ)
    (pe pde rve de : Option (List ℝ))
    (hdec : dec.length = ra.length) (hpmra : pmra.length = ra.length)
    (hpmdec : pmdec.length = ra.length) (hrv : rv.length = ra.length)
    (hdist : dist.length = ra.length)
    (hpe : ∀ e, pe = some e → e.length = ra.length)
    (hpde : ∀ e, pde = some e → e.length = ra.length)
    (hrve : ∀ e, rve = some e → e.length = ra.length)
    (hde : ∀ e, de = some e → e.length = ra.length)
    (i : Nat) (r d pm pmd rvi di : ℝ)
    (hri : ra[i]? = some r) (hdi : dec[i]? = some d) (hpmi : pmra[i]? = some pm)
    (hpmdi : pmdec[i]? = some pmd) (hrvi : rv[i]? = some rvi) (hdii : dist[i]? = some di) :
    ∃ U V W,
      (equatorial_UVW ra dec pmra pmdec rv dist pe pde rve de).map UVWResult.vel = .ok (U, V, W)
      ∧ U[i]? = some (T1fun r d * rvi + T2fun r d * pm * (kappa * di)
          + T3fun r d * pmd * (kappa * di))
      ∧ V[i]? = some (T4fun r d * rvi + T5fun r d * pm * (kappa * di)
          + T6fun r d * pmd * (kappa * di))
      ∧ W[i]? = some (T7fun r d * rvi + T8fun r d * pm * (kappa * di)
          + T9fun r d * pmd * (kappa * di)) := by
  refine ⟨uvwU ra dec pmra pmdec rv dist, uvwV ra dec pmra pmdec rv dist,
    uvwW ra dec pmra pmdec rv dist, ?_,
    uvwU_some hri hdi hpmi hpmdi hrvi hdii,
    uvwV_some hri hdi hpmi hpmdi hrvi hdii,
    uvwW_some hri hdi hpmi hpmdi hrvi hdii⟩
  rw [equatorial_UVW_checks_pass hdec hpmra hpmdec hdist hpe hpde hrve hde]
  by_cases hall : pe.isNone ∧ pde.isNone ∧ rve.isNone ∧ de.isNone
  · rw [if_pos hall]; rfl
  · rw [if_neg hall]; rfl

/-- Witness for C1 at a concrete length-1 input. -/
theorem C1_witness : ∃ U V W,
    (equatorial_UVW [1] [2] [3] [4] [5] [6] none none none none).map UVWResult.vel = .ok (U, V, W)
    ∧ U[0]? = some (T1fun 1 2 * 5 + T2fun 1 2 * 3 * (kappa * 6) + T3fun 1 2 * 4 * (kappa * 6))
    ∧ V[0]? = some (T4fun 1 2 * 5 + T5fun 1 2 * 3 * (kappa * 6) + T6fun 1 2 * 4 * (kappa * 6))
    ∧ W[0]? = some (T7fun 1 2 * 5 + T8fun 1 2 * 3 * (kappa * 6) + T9fun 1 2 * 4 * (kappa * 6)) :=
  C1_velocity_components [1] [2] [3] [4] [5] [6] none none none none rfl rfl rfl rfl rfl
    (fun _ h => by cases h) (fun _ h => by cases h) (fun _ h => by cases h)
    (fun _ h => by cases h) 0 1 2 3 4 5 6 rfl rfl rfl rfl rfl rfl

/-- C3: whenever `equatorial_galactic` completes, every element `g` of the
returned longitude satisfies `0 ≤ g < 360` and equals
`(l_north - degrees(arctan2 x1 x2)) mod 360` for that star. -/
theorem C3_longitude_range (ra dec gl gb : List ℝ)
    (h : equatorial_galactic ra dec = .ok (gl, gb)) (i : Nat) (g : ℝ)
    (hg : gl[i]? = some g) :
    0 ≤ g ∧ g < 360 ∧ ∃ r d, ra[i]? = some r ∧ dec[i]? = some d ∧
      g = pymod (l_north - degrees (arctan2 (x1fun r d) (x2fun r d))) 360 := by
  rw [equatorial_galactic] at h
  split at h
  · exact absurd h (by simp)
  · simp only [Except.ok.injEq, Prod.mk.injEq] at h
    obtain ⟨hgl, hgb⟩ := h
    subst hgl
    have hi : i < (List.zipWith glFun ra dec).length := by
      by_contra hle
      push_neg at hle
      rw [List.getElem?_eq_none hle] at hg
      cases hg
    rw [List.length_zipWith] at hi
    have hri : ra[i]? = some (ra.get ⟨i, by omega⟩) :=
      List.getElem?_eq_getElem (by omega)
    have hdi : dec[i]? = some (dec.get ⟨i, by omega⟩) :=
      List.getElem?_eq_getElem (by omega)
    have hval := zipWith_some glFun hri hdi
    rw [hval] at hg
    simp only [Option.some.injEq] at hg
    subst hg
    refine ⟨pymod_nonneg_360 _, pymod_lt_360 _, _, _, hri, hdi, ?_⟩
    unfold glFun
    exact pymod_add_360 _

/-- Witness for C3 at a concrete length-1 input. -/
theorem C3_witness :
    0 ≤ glFun 0 0 ∧ glFun 0 0 < 360 ∧ ∃ r d,
      (([0] : List ℝ))[0]? = some r ∧ (([0] : List ℝ))[0]? = some d ∧
      glFun 0 0 = pymod (l_north - degrees (arctan2 (x1fun r d) (x2fun r d))) 360 :=
  C3_longitude_range [0] [0] [glFun 0 0] [gbFun 0 0] rfl 0 (glFun 0 0) rfl

/-- C8: `equatorial_galactic` fails with the shape-mismatch error exactly when
`size(dec) ≠ size(ra)`, and completes normally whenever the sizes agree. -/
theorem C8_shape_check (ra dec : List ℝ) :
    (equatorial_galactic ra dec = .error .shapeMismatch ↔ dec.length ≠ ra.length)
    ∧ (dec.length = ra.length →
        equatorial_galactic ra dec
          = .ok (List.zipWith glFun ra dec, List.zipWith gbFun ra dec)) := by
  constructor
  · constructor
    · intro h
      by_contra hlen
      rw [equatorial_galactic_ok hlen] at h
      exact Except.noConfusion h
    · intro h
      simp [equatorial_galactic, h]
  · intro h
    exact equatorial_galactic_ok h

/-- Witness for C8 at a concrete mismatched input. -/
theorem C8_witness : equatorial_galactic [0] ([] : List ℝ) = .error .shapeMismatch :=
  (C8_shape_check [0] []).1.mpr (by simp)

/-- C9: `equatorial_UVW` never reports a shape mismatch because of `rv` alone:
with `ra, dec, pmra, pmdec, dist` of common length and `rv` of any other
length, the up-front validation passes (no shape-mismatch error is raised). -/
theorem C9_rv_unchecked (ra dec pmra pmdec rv dist : List ℝ)
    (hdec : dec.length = ra.length) (hpmra : pmra.length = ra.length)
    (hpmdec : pmdec.length = ra.length) (hdist : dist.length = ra.length)
    (hrv : rv.length ≠ ra.length) :
    equatorial_UVW ra dec pmra pmdec rv dist none none none none
      ≠ .error .shapeMismatch := by
  rw [equatorial_UVW_checks_pass hdec hpmra hpmdec hdist (fun _ h => by cases h)
    (fun _ h => by cases h) (fun _ h => by cases h) (fun _ h => by cases h)]
  rw [if_pos ⟨rfl, rfl, rfl, rfl⟩]
  exact Except.noConfusion

/-- Witness for C9 at a concrete input with an empty `rv`. -/
theorem C9_witness :
    equatorial_UVW [0] [0] [0] [0] ([] : List ℝ) [0] none none none none
      ≠ .error .shapeMismatch :=
  C9_rv_unchecked [0] [0] [0] [0] [] [0] rfl rfl rfl rfl (by simp)

/-- C2: `equatorial_XYZ` returns, element-wise,
`X = cos(gb)*cos(gl)*dist`, `Y = cos(gb)*sin(gl)*dist`, `Z = sin(gb)*dist`
with `(gl, gb)` exactly the result of `equatorial_galactic`, and the
position components do not depend on whether `dist_error` is supplied. -/
theorem C2_position_components (ra dec dist : List ℝ) (de : Option (List ℝ))
    (hdec : dec.length = ra.length) (hdist : dist.length = ra.length)
    (hde : ∀ e, de = some e → e.length = ra.length)
    (i : Nat) (r d di : ℝ)
    (hri : ra[i]? = some r) (hdi : dec[i]? = some d) (hdii : dist[i]? = some di) :
    ∃ gl gb, equatorial_galactic ra dec = .ok (gl, gb) ∧
    ∃ g b, gl[i]? = some g ∧ gb[i]? = some b ∧
    ∃ res, equatorial_XYZ ra dec dist de = .ok res
      ∧ res.pos.1[i]? = some (Real.cos (radians b) * Real.cos (radians g) * di)
      ∧ res.pos.2.1[i]? = some (Real.cos (radians b) * Real.sin (radians g) * di)
      ∧ res.pos.2.2[i]? = some (Real.sin (radians b) * di)
      ∧ (equatorial_XYZ ra dec dist de).map XYZResult.pos
          = (equatorial_XYZ ra dec dist none).map XYZResult.pos := by
  refine ⟨_, _, equatorial_galactic_ok hdec, glFun r d, gbFun r d,
    zipWith_some glFun hri hdi, zipWith_some gbFun hri hdi, ?_⟩
  cases de with
  | none =>
    exact ⟨_, equatorial_XYZ_ok_none hdec hdist,
      listMul_some (listMul_some (cosArr_some (zipWith_some gbFun hri hdi))
        (cosArr_some (zipWith_some glFun hri hdi))) hdii,
      listMul_some (listMul_some (cosArr_some (zipWith_some gbFun hri hdi))
        (sinArr_some (zipWith_some glFun hri hdi))) hdii,
      listMul_some (sinArr_some (zipWith_some gbFun hri hdi)) hdii, rfl⟩
  | some e =>
    have he := hde e rfl
    refine ⟨_, equatorial_XYZ_ok_some hdec hdist he,
      listMul_some (listMul_some (cosArr_some (zipWith_some gbFun hri hdi))
        (cosArr_some (zipWith_some glFun hri hdi))) hdii,
      listMul_some (listMul_some (cosArr_some (zipWith_some gbFun hri hdi))
        (sinArr_some (zipWith_some glFun hri hdi))) hdii,
      listMul_some (sinArr_some (zipWith_some gbFun hri hdi)) hdii, ?_⟩
    rw [equatorial_XYZ_ok_some hdec hdist he, equatorial_XYZ_ok_none hdec hdist]
    rfl

/-- Witness for C2 at a concrete length-1 input. -/
theorem C2_witness :
    ∃ gl gb, equatorial_galactic [0] [0] = .ok (gl, gb) ∧
    ∃ g b, gl[0]? = some g ∧ gb[0]? = some b ∧
    ∃ res, equatorial_XYZ [0] [0] [1] (some [2]) = .ok res
      ∧ res.pos.1[0]? = some (Real.cos (radians b) * Real.cos (radians g) * 1)
      ∧ res.pos.2.1[0]? = some (Real.cos (radians b) * Real.sin (radians g) * 1)
      ∧ res.pos.2.2[0]? = some (Real.sin (radians b) * 1)
      ∧ (equatorial_XYZ [0] [0] [1] (some [2])).map XYZResult.pos
          = (equatorial_XYZ [0] [0] [1] none).map XYZResult.pos :=
  C2_position_components [0] [0] [1] (some [2]) rfl rfl (fun _ h => by cases h; rfl)
    0 0 0 1 rfl rfl rfl

/-- C5 counterexample: at `ra=[0]`, `dec=[90]`, `dist=[1]`, `dist_error=[-1]`
the code returns `EX = |cos(gb)*cos(gl)*dist_error|`, which differs from the
claimed `|cos(gb)*cos(gl)| * dist_error` (the latter is negative here). -/
theorem C5_counterexample :
    ∃ X Y Z EX EY EZ gl gb,
      equatorial_galactic [0] [90] = .ok (gl, gb)
      ∧ equatorial_XYZ [0] [90] [1] (some [-1]) = .ok (.withError X Y Z EX EY EZ)
      ∧ gl[0]? = some (glFun 0 90) ∧ gb[0]? = some (gbFun 0 90)
      ∧ EX[0]? ≠ some (|Real.cos (radians (gbFun 0 90)) * Real.cos (radians (glFun 0 90))|
          * (-1)) := by
  refine ⟨_, _, _, _, _, _, _, _, equatorial_galactic_ok rfl,
    equatorial_XYZ_ok_some rfl rfl rfl, rfl, rfl, ?_⟩
  rw [npAbs_some (listMul_some (listMul_some
    (cosArr_some (zipWith_some gbFun (show ([0] : List ℝ)[0]? = some 0 from rfl)
      (show ([90] : List ℝ)[0]? = some 90 from rfl)))
    (cosArr_some (zipWith_some glFun (show ([0] : List ℝ)[0]? = some 0 from rfl)
      (show ([90] : List ℝ)[0]? = some 90 from rfl))))
    (show ([-1] : List ℝ)[0]? = some (-1) from rfl))]
  have hb : Real.cos (radians (gbFun 0 90)) = cos_dec_pol := by rw [gbFun_0_90]; rfl
  have hg : Real.cos (radians (glFun 0 90)) < 0 := by
    rw [glFun_0_90]; exact cos_radians_122932_neg
  have hc : Real.cos (radians (gbFun 0 90)) * Real.cos (radians (glFun 0 90)) < 0 :=
    mul_neg_of_pos_of_neg (hb ▸ cos_dec_pol_pos) hg
  simp only [ne_eq, Option.some.injEq]
  intro hcon
  rw [mul_neg_one, abs_neg, mul_neg_one] at hcon
  have habs : 0 < |Real.cos (radians (gbFun 0 90)) * Real.cos (radians (glFun 0 90))| :=
    abs_pos.mpr (ne_of_lt hc)
  linarith [hcon, habs]

/-- C5 amended: with `dist_error` supplied (matching length), the 6-tuple
error components are, element-wise, `EX = |cos(gb)*cos(gl)*dist_error|`,
`EY = |cos(gb)*sin(gl)*dist_error|`, `EZ = |sin(gb)*dist_error|` (equal to
the claimed formulas whenever `dist_error` is nonnegative); with
`dist_error` absent the function returns the plain 3-tuple. -/
theorem C5_error_components (ra dec dist del : List ℝ)
    (hdec : dec.length = ra.length) (hdist : dist.length = ra.length)
    (hdel : del.length = ra.length)
    (i : Nat) (r d e : ℝ)
    (hri : ra[i]? = some r) (hdi : dec[i]? = some d) (hei : del[i]? = some e) :
    ∃ gl gb, equatorial_galactic ra dec = .ok (gl, gb) ∧
    ∃ g b, gl[i]? = some g ∧ gb[i]? = some b ∧
    (∃ X Y Z EX EY EZ,
      equatorial_XYZ ra dec dist (some del) = .ok (.withError X Y Z EX EY EZ)
      ∧ EX[i]? = some |Real.cos (radians b) * Real.cos (radians g) * e|
      ∧ EY[i]? = some |Real.cos (radians b) * Real.sin (radians g) * e|
      ∧ EZ[i]? = some |Real.sin (radians b) * e|)
    ∧ ∃ X Y Z, equatorial_XYZ ra dec dist none = .ok (.plain X Y Z) := by
  exact ⟨_, _, equatorial_galactic_ok hdec, glFun r d, gbFun r d,
    zipWith_some glFun hri hdi, zipWith_some gbFun hri hdi,
    ⟨_, _, _, _, _, _, equatorial_XYZ_ok_some hdec hdist hdel,
      npAbs_some (listMul_some (listMul_some (cosArr_some (zipWith_some gbFun hri hdi))
        (cosArr_some (zipWith_some glFun hri hdi))) hei),
      npAbs_some (listMul_some (listMul_some (cosArr_some (zipWith_some gbFun hri hdi))
        (sinArr_some (zipWith_some glFun hri hdi))) hei),
      npAbs_some (listMul_some (sinArr_some (zipWith_some gbFun hri hdi)) hei)⟩,
    _, _, _, equatorial_XYZ_ok_none hdec hdist⟩

/-- Witness for the amended C5 at a concrete length-1 input. -/
theorem C5_witness :
    ∃ gl gb, equatorial_galactic [0] [0] = .ok (gl, gb) ∧
    ∃ g b, gl[0]? = some g ∧ gb[0]? = some b ∧
    (∃ X Y Z EX EY EZ,
      equatorial_XYZ [0] [0] [1] (some [2]) = .ok (.withError X Y Z EX EY EZ)
      ∧ EX[0]? = some |Real.cos (radians b) * Real.cos (radians g) * 2|
      ∧ EY[0]? = some |Real.cos (radians b) * Real.sin (radians g) * 2|
      ∧ EZ[0]? = some |Real.sin (radians b) * 2|)
    ∧ ∃ X Y Z, equatorial_XYZ [0] [0] [1] none = .ok (.plain X Y Z) :=
  C5_error_components [0] [0] [1] [2] rfl rfl rfl 0 0 0 2 rfl rfl rfl

/-- C4: under valid shapes, `equatorial_UVW` returns the plain 3-tuple exactly
when none of the four error arrays is supplied; if any is supplied it returns
the 6-tuple in which every unsupplied error input is replaced by the all-zero
array of length N. -/
theorem C4_tuple_arity (ra dec pmra pmdec rv dist : List ℝ)
    (pe pde rve de : Option (List ℝ))
    (hdec : dec.length = ra.length) (hpmra : pmra.length = ra.length)
    (hpmdec : pmdec.length = ra.length) (hdist : dist.length = ra.length)
    (hpe : ∀ e, pe = some e → e.length = ra.length)
    (hpde : ∀ e, pde = some e → e.length = ra.length)
    (hrve : ∀ e, rve = some e → e.length = ra.length)
    (hde : ∀ e, de = some e → e.length = ra.length) :
    ((∃ U V W, equatorial_UVW ra dec pmra pmdec rv dist pe pde rve de = .ok (.plain U V W))
        ↔ (pe = none ∧ pde = none ∧ rve = none ∧ de = none))
    ∧ (¬(pe = none ∧ pde = none ∧ rve = none ∧ de = none) →
        equatorial_UVW ra dec pmra pmdec rv dist pe pde rve de
          = .ok (.withError (uvwU ra dec pmra pmdec rv dist) (uvwV ra dec pmra pmdec rv dist)
              (uvwW ra dec pmra pmdec rv dist)
              (uvwEU ra dec pmra pmdec dist (pe.getD (List.replicate ra.length 0))
                (pde.getD (List.replicate ra.length 0)) (rve.getD (List.replicate ra.length 0))
                (de.getD (List.replicate ra.length 0)))
              (uvwEV ra dec pmra pmdec dist (pe.getD (List.replicate ra.length 0))
                (pde.getD (List.replicate ra.length 0)) (rve.getD (List.replicate ra.length 0))
                (de.getD (List.replicate ra.length 0)))
              (uvwEW ra dec pmra pmdec dist (pe.getD (List.replicate ra.length 0))
                (pde.getD (List.replicate ra.length 0)) (rve.getD (List.replicate ra.length 0))
                (de.getD (List.replicate ra.length 0))))) := by
  rw [equatorial_UVW_checks_pass hdec hpmra hpmdec hdist hpe hpde hrve hde]
  by_cases hall : pe = none ∧ pde = none ∧ rve = none ∧ de = none
  · obtain ⟨h1, h2, h3, h4⟩ := hall
    subst h1; subst h2; subst h3; subst h4
    rw [if_pos ⟨rfl, rfl, rfl, rfl⟩]
    exact ⟨⟨fun _ => ⟨rfl, rfl, rfl, rfl⟩, fun _ => ⟨_, _, _, rfl⟩⟩,
      fun hcon => absurd ⟨rfl, rfl, rfl, rfl⟩ hcon⟩
  · rw [if_neg (by simpa [Option.isNone_iff_eq_none] using hall)]
    refine ⟨⟨?_, fun h => absurd h hall⟩, fun _ => rfl⟩
    rintro ⟨U, V, W, h⟩
    simp at h

/-- Witness for C4 at a concrete input with one error array supplied. -/
theorem C4_witness :
    equatorial_UVW [1] [2] [3] [4] [5] [6] (some [0]) none none none
      = .ok (.withError (uvwU [1] [2] [3] [4] [5] [6]) (uvwV [1] [2] [3] [4] [5] [6])
          (uvwW [1] [2] [3] [4] [5] [6])
          (uvwEU [1] [2] [3] [4] [6] [0] [0] [0] [0])
          (uvwEV [1] [2] [3] [4] [6] [0] [0] [0] [0])
          (uvwEW [1] [2] [3] [4] [6] [0] [0] [0] [0])) :=
  (C4_tuple_arity [1] [2] [3] [4] [5] [6] (some [0]) none none none rfl rfl rfl rfl
      (fun _ h => by cases h; rfl) (fun _ h => by cases h) (fun _ h => by cases h)
      (fun _ h => by cases h)).2 (by simp)

/-- C6: with all four error arrays supplied as all-zero arrays of length N,
`equatorial_UVW` returns the 6-tuple with `EU = EV = EW = 0` for every star. -/
theorem C6_zero_errors (ra dec pmra pmdec rv dist pe pde rve de : List ℝ)
    (hdec : dec.length = ra.length) (hpmra : pmra.length = ra.length)
    (hpmdec : pmdec.length = ra.length) (hdist : dist.length = ra.length)
    (hpel : pe.length = ra.length) (hpdel : pde.length = ra.length)
    (hrvel : rve.length = ra.length) (hdel : de.length = ra.length)
    (hpe0 : ∀ x ∈ pe, x = 0) (hpde0 : ∀ x ∈ pde, x = 0)
    (hrve0 : ∀ x ∈ rve, x = 0) (hde0 : ∀ x ∈ de, x = 0) :
    ∃ U V W EU EV EW,
      equatorial_UVW ra dec pmra pmdec rv dist (some pe) (some pde) (some rve) (some de)
        = .ok (.withError U V W EU EV EW)
      ∧ (∀ i, i < ra.length → EU[i]? = some 0)
      ∧ (∀ i, i < ra.length → EV[i]? = some 0)
      ∧ (∀ i, i < ra.length → EW[i]? = some 0) := by
  rw [equatorial_UVW_checks_pass hdec hpmra hpmdec hdist
    (fun _ h => by cases h; exact hpel) (fun _ h => by cases h; exact hpdel)
    (fun _ h => by cases h; exact hrvel) (fun _ h => by cases h; exact hdel)]
  rw [if_neg (by simp)]
  simp only [Option.getD_some]
  refine ⟨_, _, _, _, _, _, rfl, ?_, ?_, ?_⟩ <;> intro i hi
  all_goals {
    have hri : ra[i]? = some (ra.get ⟨i, by omega⟩) := List.getElem?_eq_getElem (by omega)
    have hdi : dec[i]? = some (dec.get ⟨i, by omega⟩) := List.getElem?_eq_getElem (by omega)
    have hpmi : pmra[i]? = some (pmra.get ⟨i, by omega⟩) := List.getElem?_eq_getElem (by omega)
    have hpmdi : pmdec[i]? = some (pmdec.get ⟨i, by omega⟩) := List.getElem?_eq_getElem (by omega)
    have hdii : dist[i]? = some (dist.get ⟨i, by omega⟩) := List.getElem?_eq_getElem (by omega)
    have hpei : pe[i]? = some 0 := by
      rw [List.getElem?_eq_getElem (by omega)]
      exact congrArg some (hpe0 _ (List.getElem_mem _))
    have hpdei : pde[i]? = some 0 := by
      rw [List.getElem?_eq_getElem (by omega)]
      exact congrArg some (hpde0 _ (List.getElem_mem _))
    have hrvei : rve[i]? = some 0 := by
      rw [List.getElem?_eq_getElem (by omega)]
      exact congrArg some (hrve0 _ (List.getElem_mem _))
    have hdei : de[i]? = some 0 := by
      rw [List.getElem?_eq_getElem (by omega)]
      exact congrArg some (hde0 _ (List.getElem_mem _))
    first
    | rw [uvwEU_some hri hdi hpmi hpmdi hdii hpei hpdei hrvei hdei]
    | rw [uvwEV_some hri hdi hpmi hpmdi hdii hpei hpdei hrvei hdei]
    | rw [uvwEW_some hri hdi hpmi hpmdi hdii hpei hpdei hrvei hdei]
    norm_num [Real.sqrt_zero]
  }

/-- Witness for C6 at a concrete length-1 input with zero error arrays. -/
theorem C6_witness :
    ∃ U V W EU EV EW,
      equatorial_UVW [1] [2] [3] [4] [5] [6] (some [0]) (some [0]) (some [0]) (some [0])
        = .ok (.withError U V W EU EV EW)
      ∧ (∀ i, i < ([1] : List ℝ).length → EU[i]? = some 0)
      ∧ (∀ i, i < ([1] : List ℝ).length → EV[i]? = some 0)
      ∧ (∀ i, i < ([1] : List ℝ).length → EW[i]? = some 0) :=
  C6_zero_errors [1] [2] [3] [4] [5] [6] [0] [0] [0] [0] rfl rfl rfl rfl rfl rfl rfl rfl
    (by simp) (by simp) (by simp) (by simp)

/-- C7 counterexample: at `ra=[0]`, `dec=[90]`, `rv_error=[1]` (other errors
absent), the code returns `EU = sqrt((T1*rv_error)^2) = |T1*rv_error|`,
which differs from the claimed signed value `T1*rv_error` because
`T1(0,90) = TGAL[0,2] = -0.4838350155 < 0`. -/
theorem C7_counterexample :
    ∃ U V W EU EV EW,
      equatorial_UVW [0] [90] [0] [0] [0] [0] none none (some [1]) none
        = .ok (.withError U V W EU EV EW)
      ∧ EU[0]? ≠ some (T1fun 0 90 * 1) := by
  have hmain : equatorial_UVW [0] [90] [0] [0] [0] [0] none none (some [1]) none
      = .ok (.withError (uvwU [0] [90] [0] [0] [0] [0]) (uvwV [0] [90] [0] [0] [0] [0])
        (uvwW [0] [90] [0] [0] [0] [0])
        (uvwEU [0] [90] [0] [0] [0] [0] [0] [1] [0])
        (uvwEV [0] [90] [0] [0] [0] [0] [0] [1] [0])
        (uvwEW [0] [90] [0] [0] [0] [0] [0] [1] [0])) := by
    rw [equatorial_UVW_checks_pass
      (show ([90] : List ℝ).length = ([0] : List ℝ).length from rfl)
      (show ([0] : List ℝ).length = ([0] : List ℝ).length from rfl)
      (show ([0] : List ℝ).length = ([0] : List ℝ).length from rfl)
      (show ([0] : List ℝ).length = ([0] : List ℝ).length from rfl)
      (show ∀ e, (none : Option (List ℝ)) = some e → e.length = ([0] : List ℝ).length from
        fun _ h => by cases h)
      (show ∀ e, (none : Option (List ℝ)) = some e → e.length = ([0] : List ℝ).length from
        fun _ h => by cases h)
      (show ∀ e, (some [1] : Option (List ℝ)) = some e → e.length = ([0] : List ℝ).length from
        fun _ h => by cases h; rfl)
      (show ∀ e, (none : Option (List ℝ)) = some e → e.length = ([0] : List ℝ).length from
        fun _ h => by cases h)]
    rw [if_neg (by simp)]
    rfl
  refine ⟨_, _, _, _, _, _, hmain, ?_⟩
  rw [uvwEU_some (show ([0] : List ℝ)[0]? = some 0 from rfl)
    (show ([90] : List ℝ)[0]? = some 90 from rfl)
    (show ([0] : List ℝ)[0]? = some 0 from rfl) (show ([0] : List ℝ)[0]? = some 0 from rfl)
    (show ([0] : List ℝ)[0]? = some 0 from rfl) (show ([0] : List ℝ)[0]? = some 0 from rfl)
    (show ([0] : List ℝ)[0]? = some 0 from rfl) (show ([1] : List ℝ)[0]? = some 1 from rfl)
    (show ([0] : List ℝ)[0]? = some 0 from rfl)]
  have hT1 : T1fun 0 90 = -0.4838350155 := by
    unfold T1fun
    rw [cos_radians_90, sin_radians_90, TGAL_02]
    ring
  simp only [ne_eq, Option.some.injEq]
  have e1 : (Real.sqrt ((T2fun 0 90 * 0) ^ 2 + (T3fun 0 90 * 0) ^ 2) * (kappa * 0)) ^ 2
      = 0 := by
    simp only [mul_zero]
    exact zero_pow (by norm_num)
  rw [e1, add_zero, add_zero, add_zero, hT1, mul_one,
    Real.sqrt_sq_eq_abs, abs_of_neg (by norm_num : (-0.4838350155 : ℝ) < 0)]
  norm_num

/-- C7 amended: with `rv_error` supplied and the other three error inputs
zero or absent, the returned errors are exactly the absolute radial terms
`(|T1*rv_error|, |T4*rv_error|, |T7*rv_error|)`, element-wise. -/
theorem C7_radial_errors (ra dec pmra pmdec rv dist rve : List ℝ)
    (pe pde de : Option (List ℝ))
    (hdec : dec.length = ra.length) (hpmra : pmra.length = ra.length)
    (hpmdec : pmdec.length = ra.length) (hdist : dist.length = ra.length)
    (hrvel : rve.length = ra.length)
    (hpe : pe = none ∨ ∃ l, pe = some l ∧ l.length = ra.length ∧ ∀ x ∈ l, x = 0)
    (hpde : pde = none ∨ ∃ l, pde = some l ∧ l.length = ra.length ∧ ∀ x ∈ l, x = 0)
    (hde : de = none ∨ ∃ l, de = some l ∧ l.length = ra.length ∧ ∀ x ∈ l, x = 0)
    (i : Nat) (r d rvei : ℝ)
    (hri : ra[i]? = some r) (hdi : dec[i]? = some d) (hrvei : rve[i]? = some rvei) :
    ∃ U V W EU EV EW,
      equatorial_UVW ra dec pmra pmdec rv dist pe pde (some rve) de
        = .ok (.withError U V W EU EV EW)
      ∧ EU[i]? = some |T1fun r d * rvei|
      ∧ EV[i]? = some |T4fun r d * rvei|
      ∧ EW[i]? = some |T7fun r d * rvei| := by
  have hi : i < ra.length := by
    by_contra hle
    push_neg at hle
    rw [List.getElem?_eq_none hle] at hri
    cases hri
  have hpml : ∀ e, pe = some e → e.length = ra.length := by
    rcases hpe with h | ⟨l, hl, hlen, _⟩
    · intro e he; rw [h] at he; cases he
    · intro e he; rw [hl] at he; cases he; exact hlen
  have hpdl : ∀ e, pde = some e → e.length = ra.length := by
    rcases hpde with h | ⟨l, hl, hlen, _⟩
    · intro e he; rw [h] at he; cases he
    · intro e he; rw [hl] at he; cases he; exact hlen
  have hdl : ∀ e, de = some e → e.length = ra.length := by
    rcases hde with h | ⟨l, hl, hlen, _⟩
    · intro e he; rw [h] at he; cases he
    · intro e he; rw [hl] at he; cases he; exact hlen
  rw [equatorial_UVW_checks_pass hdec hpmra hpmdec hdist hpml hpdl
    (fun _ h => by cases h; exact hrvel) hdl]
  rw [if_neg (by simp)]
  have hpe0i : (pe.getD (List.replicate ra.length 0))[i]? = some 0 := by
    rcases hpe with h | ⟨l, hl, hlen, hl0⟩
    · rw [h]; exact replicate_zero_some hi
    · rw [hl]
      simp only [Option.getD_some]
      rw [List.getElem?_eq_getElem (by omega)]
      exact congrArg some (hl0 _ (List.getElem_mem _))
  have hpde0i : (pde.getD (List.replicate ra.length 0))[i]? = some 0 := by
    rcases hpde with h | ⟨l, hl, hlen, hl0⟩
    · rw [h]; exact replicate_zero_some hi
    · rw [hl]
      simp only [Option.getD_some]
      rw [List.getElem?_eq_getElem (by omega)]
      exact congrArg some (hl0 _ (List.getElem_mem _))
  have hde0i : (de.getD (List.replicate ra.length 0))[i]? = some 0 := by
    rcases hde with h | ⟨l, hl, hlen, hl0⟩
    · rw [h]; exact replicate_zero_some hi
    · rw [hl]
      simp only [Option.getD_some]
      rw [List.getElem?_eq_getElem (by omega)]
      exact congrArg some (hl0 _ (List.getElem_mem _))
  have hrve0i : ((some rve).getD (List.replicate ra.length 0))[i]? = some rvei := by
    simp only [Option.getD_some]
    exact hrvei
  have hpmi : pmra[i]? = some (pmra.get ⟨i, by omega⟩) := List.getElem?_eq_getElem (by omega)
  have hpmdi : pmdec[i]? = some (pmdec.get ⟨i, by omega⟩) := List.getElem?_eq_getElem (by omega)
  have hdii : dist[i]? = some (dist.get ⟨i, by omega⟩) := List.getElem?_eq_getElem (by omega)
  refine ⟨_, _, _, _, _, _, rfl, ?_, ?_, ?_⟩
  · rw [uvwEU_some hri hdi hpmi hpmdi hdii hpe0i hpde0i hrve0i hde0i]
    norm_num [Real.sqrt_zero, Real.sqrt_sq_eq_abs]
  · rw [uvwEV_some hri hdi hpmi hpmdi hdii hpe0i hpde0i hrve0i hde0i]
    norm_num [Real.sqrt_zero, Real.sqrt_sq_eq_abs]
  · rw [uvwEW_some hri hdi hpmi hpmdi hdii hpe0i hpde0i hrve0i hde0i]
    norm_num [Real.sqrt_zero, Real.sqrt_sq_eq_abs]

/-- Witness for the amended C7 at a concrete length-1 input. -/
theorem C7_witness :
    ∃ U V W EU EV EW,
      equatorial_UVW [1] [2] [3] [4] [5] [6] none none (some [7]) none
        = .ok (.withError U V W EU EV EW)
      ∧ EU[0]? = some |T1fun 1 2 * 7|
      ∧ EV[0]? = some |T4fun 1 2 * 7|
      ∧ EW[0]? = some |T7fun 1 2 * 7| :=
  C7_radial_errors [1] [2] [3] [4] [5] [6] [7] none none none rfl rfl rfl rfl rfl
    (Or.inl rfl) (Or.inl rfl) (Or.inl rfl) 0 1 2 7 rfl rfl rfl

/-- C10 counterexample: on scalar inputs `equatorial_UVW` does not complete:
the loop over `range(len(dist))` applies `len` to a scalar and raises
`TypeError` (it does not behave as on length-1 arrays). -/
theorem C10_counterexample :
    equatorial_UVW_scalar 10 20 3 4 5 100 none none none none = .error .typeError := rfl

/-- C10 amended: `equatorial_galactic` and `equatorial_XYZ` accept scalar
inputs, treating them as length-1 arrays (their scalar results equal the
elements of the corresponding length-1 array results) without raising;
`equatorial_UVW`, however, raises `TypeError` on scalar inputs because it
applies `len` to `dist` (and to `dist_error`). -/
theorem C10_scalar_broadcast (ra dec dist de pmra pmdec rv : ℝ)
    (pe2 pde2 rve2 de2 : Option ℝ) :
    (equatorial_galactic_scalar ra dec = .ok (glFun ra dec, gbFun ra dec)
      ∧ equatorial_galactic [ra] [dec] = .ok ([glFun ra dec], [gbFun ra dec]))
    ∧ (equatorial_XYZ_scalar ra dec dist none
        = .ok (.plain (Real.cos (radians (gbFun ra dec)) * Real.cos (radians (glFun ra dec)) * dist)
            (Real.cos (radians (gbFun ra dec)) * Real.sin (radians (glFun ra dec)) * dist)
            (Real.sin (radians (gbFun ra dec)) * dist))
      ∧ equatorial_XYZ [ra] [dec] [dist] none
        = .ok (.plain
            [Real.cos (radians (gbFun ra dec)) * Real.cos (radians (glFun ra dec)) * dist]
            [Real.cos (radians (gbFun ra dec)) * Real.sin (radians (glFun ra dec)) * dist]
            [Real.sin (radians (gbFun ra dec)) * dist]))
    ∧ (equatorial_XYZ_scalar ra dec dist (some de)
        = .ok (.withError
            (Real.cos (radians (gbFun ra dec)) * Real.cos (radians (glFun ra dec)) * dist)
            (Real.cos (radians (gbFun ra dec)) * Real.sin (radians (glFun ra dec)) * dist)
            (Real.sin (radians (gbFun ra dec)) * dist)
            |Real.cos (radians (gbFun ra dec)) * Real.cos (radians (glFun ra dec)) * de|
            |Real.cos (radians (gbFun ra dec)) * Real.sin (radians (glFun ra dec)) * de|
            |Real.sin (radians (gbFun ra dec)) * de|)
      ∧ equatorial_XYZ [ra] [dec] [dist] (some [de])
        = .ok (.withError
            [Real.cos (radians (gbFun ra dec)) * Real.cos (radians (glFun ra dec)) * dist]
            [Real.cos (radians (gbFun ra dec)) * Real.sin (radians (glFun ra dec)) * dist]
            [Real.sin (radians (gbFun ra dec)) * dist]
            [|Real.cos (radians (gbFun ra dec)) * Real.cos (radians (glFun ra dec)) * de|]
            [|Real.cos (radians (gbFun ra dec)) * Real.sin (radians (glFun ra dec)) * de|]
            [|Real.sin (radians (gbFun ra dec)) * de|]))
    ∧ equatorial_UVW_scalar ra dec pmra pmdec rv dist pe2 pde2 rve2 de2
        = .error .typeError :=
  ⟨⟨rfl, rfl⟩, ⟨rfl, rfl⟩, ⟨rfl, rfl⟩, rfl⟩
